import Mathlib

/-!
# click-to-call: the token-issuance gatekeeper, verified

A shallow embedding of the session-binding + rate-limiting gatekeeper of the
click-to-call server (`main.ts`), together with the JWT session-cookie
functions (`createSessionCookie` / `checkSessionCookie`).

The rate limiter used by `main.ts` is the external `rate-limiter-flexible`
library (`RateLimiterMemory`), whose source is not part of this repository;
its fixed-window `consume` semantics are modelled from the spec
(lazy bucket creation, lazy window reset, check-then-increment, a rejected
consume mutates nothing). Everything else is translated from the source:
the `/token` route's pipeline (session check, then per-IP consume, then
global consume, then token issuance) and the session-cookie verification.

Time is a natural number (seconds); durations are in seconds exactly as the
source configures them (global window 1 s, per-IP window 60*60*24 s).
-/

namespace ClickToCall

/-- Global calls-per-second limit: `GLOBAL_CPS_LIMIT = 5` in `main.ts`. -/
def GLOBAL_CPS_LIMIT : Nat := 5

/-- Max daily calls per individual IP address: `PER_IP_DAILY_LIMIT = 10` in `main.ts`. -/
def PER_IP_DAILY_LIMIT : Nat := 10

/-- Window of the global limiter: `duration: 1` (one second) in `main.ts`. -/
def globalDuration : Nat := 1

/-- Window of the per-IP limiter: `duration: 60 * 60 * 24` (one day) in `main.ts`. -/
def perIPDuration : Nat := 60 * 60 * 24

/-- Access-token time-to-live: `ACCESS_TOKEN_TTL = 2` in `main.ts`. -/
def ACCESS_TOKEN_TTL : Nat := 2

/-- A fixed-window quota bucket: how many consumptions happened in the
current window and when that window started. -/
structure Bucket where
  consumedCount : Nat
  windowStartTime : Nat
deriving DecidableEq, Repr

/-- Modelled from the spec: the effective bucket a consume operates on.
A key with no bucket yet gets a fresh one lazily (count 0, window starting
now); a bucket whose window has elapsed is lazily reset (count back to 0,
window advanced to the current time, not to a fast-forward multiple of the
duration). The library holding this logic (`rate-limiter-flexible`) is not
part of the repository source. -/
def effectiveBucket (duration now : Nat) (b? : Option Bucket) : Bucket :=
  match b? with
  | none => ⟨0, now⟩
  | some b => if b.windowStartTime + duration ≤ now then ⟨0, now⟩ else b

/-- Modelled from the spec: `consume(key)` of the fixed-window rate limiter.
Atomically checks the effective bucket and, if the count is still below the
limit, increments it; a consume that would exceed the limit is rejected and
mutates nothing (the stored state is returned unchanged). Returns
(allowed?, new stored bucket). -/
def consume (limit duration now : Nat) (b? : Option Bucket) : Bool × Option Bucket :=
  let eff := effectiveBucket duration now b?
  if eff.consumedCount < limit then
    (true, some ⟨eff.consumedCount + 1, eff.windowStartTime⟩)
  else
    (false, b?)

/-- The per-IP bucket store: one bucket per client identity (IP address),
created lazily. An association list stands in for the library's in-memory
key/value store. -/
def lookupBucket (key : String) (m : List (String × Bucket)) : Option Bucket :=
  match m with
  | [] => none
  | (k, b) :: rest => if k = key then some b else lookupBucket key rest

/-- Store a bucket under a key, replacing any previous entry for that key. -/
def setBucket (key : String) (b : Bucket) (m : List (String × Bucket)) :
    List (String × Bucket) :=
  match m with
  | [] => [(key, b)]
  | (k, b0) :: rest => if k = key then (key, b) :: rest else (k, b0) :: setBucket key b rest

/-- Apply a consume's resulting bucket to the store; a consume that returned
no bucket (rejected before any bucket existed) stores nothing. -/
def updateBucket (key : String) (b? : Option Bucket) (m : List (String × Bucket)) :
    List (String × Bucket) :=
  match b? with
  | none => m
  | some b => setBucket key b m

/-- The mutable state of the server's two limiters: the per-IP limiter's
bucket store and the global limiter's single bucket (key `'global'`). -/
structure ServerState where
  perIP : List (String × Bucket)
  global : Option Bucket
deriving DecidableEq, Repr

/-- The state of a freshly started server: no bucket exists yet. -/
def emptyServerState : ServerState := ⟨[], none⟩

/-- The credential the external issuer returns for an identity
(`generateAccessToken` in `main.ts`). Its contents are opaque to the
gatekeeper; it is modelled as an injective tag of the identity. -/
def generateAccessToken (identity : String) : String :=
  String.append "access-token-for:" identity

/-- Outcome of one `/token` request, as `main.ts` serializes it:
401 Unauthorized, 429 with the per-IP message, 429 with the global message,
or 200 with the token. -/
inductive TokenResult where
  | unauthorized
  | identityQuotaExceeded
  | globalQuotaExceeded
  | issued (token : String)
deriving DecidableEq, Repr

/-- The `/token` route of `main.ts`. `session` is the value Oak's signed
cookie jar returns for the `session` cookie (`none` when the cookie is
missing or its signature is invalid). The route rejects with 401 unless the
session value equals the requesting IP, then consumes the per-IP limiter
(429 on rejection), then the global limiter (429 on rejection), and finally
issues the access token for the IP. -/
def handleToken (now : Nat) (ip : String) (session : Option String)
    (st : ServerState) : TokenResult × ServerState :=
  if session = some ip then
    let r1 := consume PER_IP_DAILY_LIMIT perIPDuration now (lookupBucket ip st.perIP)
    if r1.fst then
      let st1 : ServerState := ⟨updateBucket ip r1.snd st.perIP, st.global⟩
      let r2 := consume GLOBAL_CPS_LIMIT globalDuration now st1.global
      if r2.fst then
        (TokenResult.issued (generateAccessToken ip), ⟨st1.perIP, r2.snd⟩)
      else
        (TokenResult.globalQuotaExceeded, ⟨st1.perIP, r2.snd⟩)
    else
      (TokenResult.identityQuotaExceeded, ⟨updateBucket ip r1.snd st.perIP, st.global⟩)
  else
    (TokenResult.unauthorized, st)

/-- A sequence of `/token` requests, processed one after another (the host
is a single-threaded event loop and the whole decision is synchronous, so
simultaneous requests are serialized in some order). Each request is
(time, requesting IP, verified session-cookie value). -/
def runRequests (reqs : List (Nat × String × Option String)) (st : ServerState) :
    List TokenResult × ServerState :=
  match reqs with
  | [] => ([], st)
  | (now, ip, sess) :: rest =>
    let r := handleToken now ip sess st
    let (rs, st') := runRequests rest r.snd
    (r.fst :: rs, st')

/-- A sequence of bare consume calls against one bucket, returning the
per-call verdicts and the final stored bucket. -/
def consumeRun (limit duration : Nat) (ts : List Nat) (b? : Option Bucket) :
    List Bool × Option Bucket :=
  match ts with
  | [] => ([], b?)
  | t :: rest =>
    let r := consume limit duration t b?
    ((r.fst :: (consumeRun limit duration rest r.snd).fst),
     (consumeRun limit duration rest r.snd).snd)

/-- Payload of the session JWT: the identity placed in the token's grants
by `createSessionCookie`, and the expiry claim the external token library
may embed (left abstract: the source passes no ttl of its own). -/
structure SessionPayload where
  identity : String
  exp : Option Nat
deriving DecidableEq, Repr

/-- Symbolic HMAC signature over a payload under a signing key: a value an
agent can produce exactly when it holds the key. Signature validity of a
token is, by definition, equality with this value. -/
def signPayload (key : String) (p : SessionPayload) : String :=
  String.append key (String.append ":" (String.append p.identity
    (match p.exp with
     | none => ":noexp"
     | some e => String.append ":" (toString e))))

/-- A session JWT: a signed payload. -/
structure Jwt where
  payload : SessionPayload
  sig : String
deriving DecidableEq, Repr

/-- `createSessionCookie` of the server: a token whose grants carry the
given identity, signed with the API secret. `e` is the expiry claim the
external token library embeds, opaque to this code. -/
def createSessionCookie (key identity : String) (e : Option Nat) : Jwt :=
  ⟨⟨identity, e⟩, signPayload key ⟨identity, e⟩⟩

/-- Options of `jwt.verify` that the server uses. -/
structure VerifyOptions where
  ignoreExpiration : Bool
deriving DecidableEq, Repr

/-- `jwt.verify(token, key, options)` at the current time: the decoded
payload when the signature is valid under `key` and the token is not
expired (the expiry check is skipped entirely when `ignoreExpiration` is
set); `none` for a bad signature or an expired token. A structurally
corrupted token is one whose signature does not match its payload. -/
def jwtVerify (key : String) (token : Jwt) (opts : VerifyOptions) (now : Nat) :
    Option SessionPayload :=
  if token.sig = signPayload key token.payload then
    if opts.ignoreExpiration then
      some token.payload
    else
      match token.payload.exp with
      | none => some token.payload
      | some e => if e ≤ now then none else some token.payload
  else
    none

/-- `checkSessionCookie(cookie, identity)` of the server: verify the JWT
with `ignoreExpiration: true` (only signature and identity matter) and
compare the decoded identity; any verification error yields `false`. -/
def checkSessionCookie (key : String) (cookie : Jwt) (identity : String) (now : Nat) :
    Bool :=
  match jwtVerify key cookie ⟨true⟩ now with
  | some decoded => decoded.identity = identity
  | none => false

/-! ## Helper lemmas on the limiter and the bucket store -/

/-- A successful consume returns the effective bucket incremented by one. -/
lemma consume_true_iff (l d now : Nat) (b? : Option Bucket) :
    (consume l d now b?).fst = true ↔ (effectiveBucket d now b?).consumedCount < l := by
  unfold consume
  by_cases h : (effectiveBucket d now b?).consumedCount < l <;> simp [h]

/-- The stored bucket after a successful consume. -/
lemma consume_snd_of_lt (l d now : Nat) (b? : Option Bucket)
    (h : (effectiveBucket d now b?).consumedCount < l) :
    consume l d now b? =
      (true, some ⟨(effectiveBucket d now b?).consumedCount + 1,
                   (effectiveBucket d now b?).windowStartTime⟩) := by
  unfold consume
  simp [h]

/-- A rejected consume returns the stored state unchanged. -/
lemma consume_false_snd (l d now : Nat) (b? : Option Bucket)
    (h : (consume l d now b?).fst = false) :
    (consume l d now b?).snd = b? := by
  unfold consume at h ⊢
  by_cases hc : (effectiveBucket d now b?).consumedCount < l
  · simp [hc] at h
  · simp [hc]

/-- Looking up the key just stored finds the stored bucket. -/
lemma lookup_setBucket (key : String) (b : Bucket) (m : List (String × Bucket)) :
    lookupBucket key (setBucket key b m) = some b := by
  induction m with
  | nil => simp [setBucket, lookupBucket]
  | cons hd tl ih =>
    by_cases h : hd.fst = key
    · simp [setBucket, lookupBucket, h]
    · simpa [setBucket, lookupBucket, h] using ih

/-- Looking up a different key is unaffected by a store. -/
lemma lookup_setBucket_ne (key k : String) (b : Bucket) (m : List (String × Bucket))
    (h : key ≠ k) :
    lookupBucket k (setBucket key b m) = lookupBucket k m := by
  induction m with
  | nil => simp [setBucket, lookupBucket, h]
  | cons hd tl ih =>
    by_cases hk : hd.fst = key
    · simp [setBucket, lookupBucket, hk, h]
    · simp [setBucket, lookupBucket, hk, ih]

/-- Storing back the bucket a key already holds changes nothing. -/
lemma setBucket_lookup_self (key : String) (b : Bucket) (m : List (String × Bucket))
    (h : lookupBucket key m = some b) : setBucket key b m = m := by
  induction m with
  | nil => simp [lookupBucket] at h
  | cons hd tl ih =>
    by_cases hk : hd.fst = key
    · obtain ⟨k0, b0⟩ := hd
      simp only [lookupBucket] at h
      simp only at hk
      rw [if_pos hk] at h
      obtain rfl := Option.some.inj h
      simp only [setBucket]
      rw [if_pos hk, hk]
    · simp only [lookupBucket] at h
      simp only at hk
      rw [if_neg hk] at h
      simp [setBucket, hk, ih h]

/-- Writing back a key's own looked-up state is the identity on the store. -/
lemma updateBucket_lookup_self (key : String) (m : List (String × Bucket)) :
    updateBucket key (lookupBucket key m) m = m := by
  cases h : lookupBucket key m with
  | none => simp [updateBucket]
  | some b => simp [updateBucket, setBucket_lookup_self key b m h]

/-- One consume keeps the stored count within the limit, provided it was
within the limit before. -/
lemma consume_snd_count_le (l d now : Nat) (b? : Option Bucket)
    (h : ∀ b, b? = some b → b.consumedCount ≤ l) :
    ∀ b, (consume l d now b?).snd = some b → b.consumedCount ≤ l := by
  intro b hb
  unfold consume at hb
  by_cases hc : (effectiveBucket d now b?).consumedCount < l
  · simp only [hc, if_pos] at hb
    obtain rfl := Option.some.inj hb
    show (effectiveBucket d now b?).consumedCount + 1 ≤ l
    omega
  · simp only [hc, if_neg, if_false] at hb
    exact h b hb

/-- A successful consume always lands within the limit, whatever the prior
stored state was. -/
lemma consume_true_count_le (l d now : Nat) (b? : Option Bucket) (b : Bucket)
    (hb : consume l d now b? = (true, some b)) : b.consumedCount ≤ l := by
  unfold consume at hb
  by_cases hc : (effectiveBucket d now b?).consumedCount < l
  · rw [if_pos hc] at hb
    injection hb with hfst hsnd
    injection hsnd with hb2
    rw [← hb2]
    show (effectiveBucket d now b?).consumedCount + 1 ≤ l
    omega
  · rw [if_neg hc] at hb
    injection hb with hfst hsnd
    exact absurd hfst Bool.false_ne_true

/-- Any run of consumes from a within-limit store keeps the count within
the limit. -/
lemma consumeRun_count_le (l d : Nat) (ts : List Nat) :
    ∀ b? : Option Bucket, (∀ b, b? = some b → b.consumedCount ≤ l) →
      ∀ bf, (consumeRun l d ts b?).snd = some bf → bf.consumedCount ≤ l := by
  induction ts with
  | nil => intro b? h bf hbf; exact h bf hbf
  | cons t rest ih =>
    intro b? h bf hbf
    simp only [consumeRun] at hbf
    exact ih (consume l d t b?).snd (consume_snd_count_le l d t b? h) bf hbf

/-! ## Claim theorems -/

/-- C4: after every successful consume the stored count is at most the
limit (also along any whole sequence of consumes from a fresh key), and a
consume that would exceed the limit is rejected leaving the stored bucket —
count and window start — unchanged. -/
theorem bucket_consume_invariant (l d now : Nat) (ts : List Nat) (b? : Option Bucket) :
    (∀ b, consume l d now b? = (true, some b) → b.consumedCount ≤ l) ∧
    ((consume l d now b?).fst = false → (consume l d now b?).snd = b?) ∧
    (∀ bf, (consumeRun l d ts none).snd = some bf → bf.consumedCount ≤ l) := by
  refine ⟨?_, consume_false_snd l d now b?, ?_⟩
  · intro b hb
    exact consume_true_count_le l d now b? b hb
  · exact consumeRun_count_le l d ts none (by intro b0 h0; cases h0)

/-- Witness for C4 at concrete inputs: a successful consume lands within
the limit; a consume against a full bucket is rejected and leaves the
bucket exactly as stored; twelve consumes from a fresh key end at the
limit, not beyond. -/
theorem bucket_consume_invariant_witness :
    (Bucket.mk 1 0).consumedCount ≤ 10 ∧
    (consume 10 86400 50 (some ⟨10, 0⟩)).snd = some ⟨10, 0⟩ ∧
    (Bucket.mk 10 0).consumedCount ≤ 10 := by
  refine ⟨?_, ?_, ?_⟩
  · exact (bucket_consume_invariant 10 86400 0 [] none).1 ⟨1, 0⟩ (by decide)
  · exact (bucket_consume_invariant 10 86400 50 [] (some ⟨10, 0⟩)).2.1 (by decide)
  · exact (bucket_consume_invariant 10 86400 0 [0, 0, 0, 0, 0, 0, 0, 0, 0, 0, 0, 0]
      none).2.2 ⟨10, 0⟩ (by decide)

/-- C8: once the current time exceeds a bucket's window start plus the
window duration, the next consume succeeds even against a previously
exhausted bucket, and the stored bucket is reset: count back to zero and
then incremented to one, with the new window starting at the current time
(not at a fast-forward multiple of the duration). -/
theorem consume_window_reset (l d now : Nat) (b : Bucket)
    (hexp : b.windowStartTime + d < now) (hl : 0 < l) :
    consume l d now (some b) = (true, some ⟨1, now⟩) := by
  have heff : effectiveBucket d now (some b) = ⟨0, now⟩ := by
    simp [effectiveBucket, Nat.le_of_lt hexp]
  unfold consume
  rw [heff]
  simp [hl]

/-- Witness for C8: the global bucket, exhausted at 5/5 in the window that
started at time 0, accepts again at time 100 and restarts its window at
100. -/
theorem consume_window_reset_witness :
    (Bucket.mk 5 0).windowStartTime + 1 < 100 ∧ 0 < 5 ∧
    consume 5 1 100 (some ⟨5, 0⟩) = (true, some ⟨1, 100⟩) :=
  ⟨by decide, by decide, consume_window_reset 5 1 100 ⟨5, 0⟩ (by decide) (by decide)⟩

/-- C3: a request that fails session verification terminates with the
unauthorized outcome and mutates neither the per-identity store nor the
global bucket — no quota is consumed for unauthenticated requests. -/
theorem unauthorized_consumes_no_quota (now : Nat) (ip : String)
    (session : Option String) (st : ServerState) (h : session ≠ some ip) :
    handleToken now ip session st = (TokenResult.unauthorized, st) := by
  unfold handleToken
  rw [if_neg h]

/-- Witness for C3: a request with no session cookie at all is rejected
with 401 and the server state, mid-flight buckets included, is untouched. -/
theorem unauthorized_consumes_no_quota_witness :
    (none ≠ some "1.2.3.4") ∧
    handleToken 7 "1.2.3.4" none ⟨[("1.2.3.4", ⟨3, 0⟩)], some ⟨2, 6⟩⟩ =
      (TokenResult.unauthorized, ⟨[("1.2.3.4", ⟨3, 0⟩)], some ⟨2, 6⟩⟩) :=
  ⟨by decide,
   unauthorized_consumes_no_quota 7 "1.2.3.4" none ⟨[("1.2.3.4", ⟨3, 0⟩)], some ⟨2, 6⟩⟩
     (by decide)⟩

/-- C1: the per-identity quota is consumed before the global one — a
request that passes session verification but is rejected by the per-IP
limiter terminates with the identity-quota outcome leaving the whole state,
in particular the global bucket, unchanged. -/
theorem identity_rejection_preserves_global (now : Nat) (ip : String) (st : ServerState)
    (h : (consume PER_IP_DAILY_LIMIT perIPDuration now (lookupBucket ip st.perIP)).fst
      = false) :
    handleToken now ip (some ip) st = (TokenResult.identityQuotaExceeded, st) ∧
    (handleToken now ip (some ip) st).snd.global = st.global := by
  have hsnd := consume_false_snd PER_IP_DAILY_LIMIT perIPDuration now
    (lookupBucket ip st.perIP) h
  have hmain : handleToken now ip (some ip) st = (TokenResult.identityQuotaExceeded, st) := by
    unfold handleToken
    rw [if_pos rfl]
    simp only [h, Bool.false_eq_true, if_false, hsnd, updateBucket_lookup_self]
  exact ⟨hmain, by rw [hmain]⟩

/-- C5: a request that passes session verification and the per-IP consume
but is rejected by the global limiter terminates with the global-quota
outcome, the global bucket is unchanged, and the unit already taken from
the identity's bucket is not refunded: its stored count remains the
incremented one. -/
theorem global_rejection_no_refund (now : Nat) (ip : String) (st : ServerState)
    (h1 : (consume PER_IP_DAILY_LIMIT perIPDuration now (lookupBucket ip st.perIP)).fst
      = true)
    (h2 : (consume GLOBAL_CPS_LIMIT globalDuration now st.global).fst = false) :
    (handleToken now ip (some ip) st).fst = TokenResult.globalQuotaExceeded ∧
    lookupBucket ip (handleToken now ip (some ip) st).snd.perIP =
      some ⟨(effectiveBucket perIPDuration now (lookupBucket ip st.perIP)).consumedCount + 1,
            (effectiveBucket perIPDuration now (lookupBucket ip st.perIP)).windowStartTime⟩ ∧
    (handleToken now ip (some ip) st).snd.global = st.global := by
  have hc : (effectiveBucket perIPDuration now (lookupBucket ip st.perIP)).consumedCount
      < PER_IP_DAILY_LIMIT :=
    (consume_true_iff PER_IP_DAILY_LIMIT perIPDuration now (lookupBucket ip st.perIP)).mp h1
  have hr1 := consume_snd_of_lt PER_IP_DAILY_LIMIT perIPDuration now
    (lookupBucket ip st.perIP) hc
  have hr2 := consume_false_snd GLOBAL_CPS_LIMIT globalDuration now st.global h2
  unfold handleToken
  rw [if_pos rfl, hr1]
  simp only [updateBucket, h2, Bool.false_eq_true, if_false, if_true, hr2, lookup_setBucket]
  exact ⟨trivial, trivial, trivial⟩

/-- Witness for C5: a fresh IP arriving while the global bucket sits at its
limit is turned away globally, yet its own daily bucket now records one
spent unit. -/
theorem global_rejection_no_refund_witness :
    (consume PER_IP_DAILY_LIMIT perIPDuration 0 (lookupBucket "9.9.9.9" [])).fst = true ∧
    (consume GLOBAL_CPS_LIMIT globalDuration 0 (some ⟨5, 0⟩)).fst = false ∧
    ((handleToken 0 "9.9.9.9" (some "9.9.9.9") ⟨[], some ⟨5, 0⟩⟩).fst
        = TokenResult.globalQuotaExceeded ∧
      lookupBucket "9.9.9.9" (handleToken 0 "9.9.9.9" (some "9.9.9.9")
        ⟨[], some ⟨5, 0⟩⟩).snd.perIP = some ⟨1, 0⟩ ∧
      (handleToken 0 "9.9.9.9" (some "9.9.9.9") ⟨[], some ⟨5, 0⟩⟩).snd.global
        = some ⟨5, 0⟩) :=
  ⟨by decide, by decide,
   global_rejection_no_refund 0 "9.9.9.9" ⟨[], some ⟨5, 0⟩⟩ (by decide) (by decide)⟩

/-- Witness for C1: an IP at its daily limit is turned away and the global
bucket's count is exactly what it was. -/
theorem identity_rejection_preserves_global_witness :
    (consume PER_IP_DAILY_LIMIT perIPDuration 9
      (lookupBucket "1.2.3.4" [("1.2.3.4", ⟨10, 0⟩)])).fst = false ∧
    handleToken 9 "1.2.3.4" (some "1.2.3.4") ⟨[("1.2.3.4", ⟨10, 0⟩)], some ⟨3, 9⟩⟩ =
      (TokenResult.identityQuotaExceeded, ⟨[("1.2.3.4", ⟨10, 0⟩)], some ⟨3, 9⟩⟩) :=
  ⟨by decide,
   (identity_rejection_preserves_global 9 "1.2.3.4"
     ⟨[("1.2.3.4", ⟨10, 0⟩)], some ⟨3, 9⟩⟩ (by decide)).1⟩

/-- C2: session-cookie verification succeeds exactly on cookies genuinely
issued for the presenting identity — the signature must be the one the
current signing key produces over the cookie's own payload and the payload
identity must equal the presenting identity. A cookie whose signature does
not match (structural corruption or forgery) or whose identity differs
(issued for someone else) verifies false. -/
theorem checkSessionCookie_iff_issued (key identity : String) (cookie : Jwt) (now : Nat) :
    checkSessionCookie key cookie identity now = true ↔
      ∃ e, cookie = createSessionCookie key identity e := by
  constructor
  · intro h
    unfold checkSessionCookie jwtVerify at h
    by_cases hs : cookie.sig = signPayload key cookie.payload
    · rw [if_pos hs] at h
      simp at h
      refine ⟨cookie.payload.exp, ?_⟩
      obtain ⟨⟨id0, e0⟩, sig0⟩ := cookie
      unfold createSessionCookie
      simp only at h hs ⊢
      subst h
      rw [hs]
    · rw [if_neg hs] at h
      exact absurd h (by simp)
  · rintro ⟨e, rfl⟩
    unfold checkSessionCookie jwtVerify createSessionCookie
    simp

/-- C10: the session cookie never expires — verification ignores the
expiry claim and the current time entirely (`ignoreExpiration`), so a
cookie issued for an identity verifies at every later time, whatever
expiry the token library embedded, and verification's result is the same
at any two times. -/
theorem checkSessionCookie_time_independent (key identity : String) (e : Option Nat)
    (cookie : Jwt) (now now' : Nat) :
    checkSessionCookie key (createSessionCookie key identity e) identity now = true ∧
    checkSessionCookie key cookie identity now
      = checkSessionCookie key cookie identity now' := by
  constructor
  · unfold checkSessionCookie jwtVerify createSessionCookie
    simp
  · unfold checkSessionCookie jwtVerify
    by_cases hs : cookie.sig = signPayload key cookie.payload <;> simp [hs]

/-- A window never ends at the instant it starts plus less than its
duration: helper shape for the global one-second window at a free time. -/
lemma add_one_le_self_iff (t : Nat) : (t + 1 ≤ t) ↔ False :=
  iff_false_intro (by omega)

/-- Helper shape for the per-IP one-day window at a free time. -/
lemma add_day_le_self_iff (t : Nat) : (t + 86400 ≤ t) ↔ False :=
  iff_false_intro (by omega)

/-- C6: for every identity with a valid session cookie and no bucket yet,
the first ten requests within one daily window (spaced a second apart, so
the global one-second limit never interferes) all receive a token, and the
eleventh request in the same daily window is rejected with the per-identity
quota outcome. -/
theorem per_identity_limit_exhaustion (i : String) :
    (runRequests [(0, i, some i), (1, i, some i), (2, i, some i), (3, i, some i),
      (4, i, some i), (5, i, some i), (6, i, some i), (7, i, some i), (8, i, some i),
      (9, i, some i), (10, i, some i)] emptyServerState).fst =
    [TokenResult.issued (generateAccessToken i), TokenResult.issued (generateAccessToken i),
     TokenResult.issued (generateAccessToken i), TokenResult.issued (generateAccessToken i),
     TokenResult.issued (generateAccessToken i), TokenResult.issued (generateAccessToken i),
     TokenResult.issued (generateAccessToken i), TokenResult.issued (generateAccessToken i),
     TokenResult.issued (generateAccessToken i), TokenResult.issued (generateAccessToken i),
     TokenResult.identityQuotaExceeded] := by
  simp [runRequests, handleToken, consume, effectiveBucket, lookupBucket, setBucket,
    updateBucket, emptyServerState, GLOBAL_CPS_LIMIT, PER_IP_DAILY_LIMIT, perIPDuration,
    globalDuration]

/-- C7: the global bucket is shared across identities — with the global
limit of 5, when five pairwise-distinct identities (each with a valid
session cookie and no history of its own) consume once in the same
one-second window, a sixth distinct identity's request in that window is
rejected with the global-quota outcome even though that identity has never
consumed before. -/
theorem global_bucket_shared (t : Nat) (a b c d e f : String)
    (hab : a ≠ b) (hac : a ≠ c) (had : a ≠ d) (hae : a ≠ e) (haf : a ≠ f)
    (hbc : b ≠ c) (hbd : b ≠ d) (hbe : b ≠ e) (hbf : b ≠ f)
    (hcd : c ≠ d) (hce : c ≠ e) (hcf : c ≠ f)
    (hde : d ≠ e) (hdf : d ≠ f) (hef : e ≠ f) :
    (runRequests [(t, a, some a), (t, b, some b), (t, c, some c), (t, d, some d),
      (t, e, some e), (t, f, some f)] emptyServerState).fst =
    [TokenResult.issued (generateAccessToken a), TokenResult.issued (generateAccessToken b),
     TokenResult.issued (generateAccessToken c), TokenResult.issued (generateAccessToken d),
     TokenResult.issued (generateAccessToken e), TokenResult.globalQuotaExceeded] := by
  simp [runRequests, handleToken, consume, effectiveBucket, lookupBucket, setBucket,
    updateBucket, emptyServerState, GLOBAL_CPS_LIMIT, PER_IP_DAILY_LIMIT, perIPDuration,
    globalDuration, add_one_le_self_iff, add_day_le_self_iff,
    hab, hac, had, hae, haf, hbc, hbd, hbe, hbf, hcd, hce, hcf, hde, hdf, hef]

/-- Witness for C7: six concrete distinct addresses in the same second —
the first five get tokens, the sixth is told the system is busy. -/
theorem global_bucket_shared_witness :
    ("10.0.0.1" : String) ≠ "10.0.0.6" ∧
    (runRequests [(0, "10.0.0.1", some "10.0.0.1"), (0, "10.0.0.2", some "10.0.0.2"),
      (0, "10.0.0.3", some "10.0.0.3"), (0, "10.0.0.4", some "10.0.0.4"),
      (0, "10.0.0.5", some "10.0.0.5"), (0, "10.0.0.6", some "10.0.0.6")]
      emptyServerState).fst =
    [TokenResult.issued (generateAccessToken "10.0.0.1"),
     TokenResult.issued (generateAccessToken "10.0.0.2"),
     TokenResult.issued (generateAccessToken "10.0.0.3"),
     TokenResult.issued (generateAccessToken "10.0.0.4"),
     TokenResult.issued (generateAccessToken "10.0.0.5"),
     TokenResult.globalQuotaExceeded] :=
  ⟨by decide,
   global_bucket_shared 0 "10.0.0.1" "10.0.0.2" "10.0.0.3" "10.0.0.4" "10.0.0.5" "10.0.0.6"
     (by decide) (by decide) (by decide) (by decide) (by decide) (by decide) (by decide)
     (by decide) (by decide) (by decide) (by decide) (by decide) (by decide) (by decide)
     (by decide)⟩

/-- Consuming inside a live window (duration positive, same instant as the
window start) admits below the limit and rejects at it. -/
lemma consume_same_instant (k d t c : Nat) (hd : 0 < d) :
    consume k d t (some ⟨c, t⟩) =
      if c < k then (true, some ⟨c + 1, t⟩) else (false, some ⟨c, t⟩) := by
  have hwin : ¬ (t + d ≤ t) := by omega
  unfold consume effectiveBucket
  by_cases hc : c < k <;> simp [hwin, hc]

/-- Verdicts of a same-instant run against one bucket: the remaining quota
is granted first, everything after is refused. -/
lemma consumeRun_replicate_from_bucket (k d t : Nat) (hd : 0 < d) :
    ∀ (m c : Nat), (consumeRun k d (List.replicate m t) (some ⟨c, t⟩)).fst =
      List.replicate (min m (k - c)) true ++ List.replicate (m - (k - c)) false := by
  intro m
  induction m with
  | zero => intro c; simp [consumeRun]
  | succ m ih =>
    intro c
    rw [List.replicate_succ]
    by_cases hc : c < k
    · have h1 : consume k d t (some ⟨c, t⟩) = (true, some ⟨c + 1, t⟩) := by
        rw [consume_same_instant k d t c hd, if_pos hc]
      simp only [consumeRun, h1]
      rw [ih (c + 1)]
      rw [show min (m + 1) (k - c) = min m (k - (c + 1)) + 1 from by omega,
          show m + 1 - (k - c) = m - (k - (c + 1)) from by omega,
          List.replicate_succ, List.cons_append]
    · have h1 : consume k d t (some ⟨c, t⟩) = (false, some ⟨c, t⟩) := by
        rw [consume_same_instant k d t c hd, if_neg hc]
      simp only [consumeRun, h1]
      rw [ih c]
      rw [show min (m + 1) (k - c) = 0 from by omega, show min m (k - c) = 0 from by omega,
          show m + 1 - (k - c) = (m - (k - c)) + 1 from by omega,
          List.replicate_zero, List.nil_append, List.nil_append, List.replicate_succ]

/-- With a limit of zero every consume from a fresh key is refused and no
bucket is ever created. -/
lemma consumeRun_zero_limit (d t : Nat) :
    ∀ m, (consumeRun 0 d (List.replicate m t) none).fst = List.replicate m false := by
  intro m
  induction m with
  | zero => simp [consumeRun]
  | succ m ih =>
    rw [List.replicate_succ]
    have h1 : consume 0 d t none = (false, none) := by
      unfold consume effectiveBucket
      simp
    simp only [consumeRun, h1]
    rw [ih, List.replicate_succ]

/-- C9: simultaneous consume calls are serialized by the single-threaded
host and each check-then-increment is atomic, so N consume calls at the
same instant against one bucket with limit k, k < N, admit exactly the
first k and refuse the other N - k: exactly k successes and N - k
failures, never two winners for a last remaining unit. -/
theorem concurrent_consume_exact_admission (k N d t : Nat) (hd : 0 < d) (hk : k < N) :
    (consumeRun k d (List.replicate N t) none).fst =
      List.replicate k true ++ List.replicate (N - k) false ∧
    List.count true (consumeRun k d (List.replicate N t) none).fst = k ∧
    List.count false (consumeRun k d (List.replicate N t) none).fst = N - k := by
  have hmain : (consumeRun k d (List.replicate N t) none).fst =
      List.replicate k true ++ List.replicate (N - k) false := by
    cases k with
    | zero => simpa using consumeRun_zero_limit d t N
    | succ k0 =>
      cases N with
      | zero => omega
      | succ n0 =>
        rw [List.replicate_succ]
        have h1 : consume (k0 + 1) d t none = (true, some ⟨1, t⟩) := by
          unfold consume effectiveBucket
          simp
        simp only [consumeRun, h1]
        rw [consumeRun_replicate_from_bucket (k0 + 1) d t hd n0 1]
        rw [show min n0 (k0 + 1 - 1) = k0 from by omega,
            show n0 - (k0 + 1 - 1) = n0 + 1 - (k0 + 1) from by omega,
            show (k0 + 1 : Nat) = k0 + 1 from rfl,
            List.replicate_succ, List.cons_append]
  refine ⟨hmain, ?_, ?_⟩ <;>
    simp [hmain, List.count_append, List.count_replicate, Nat.sub_eq_zero_of_le hk.le]

/-- Witness for C9: three simultaneous calls against a fresh bucket with
limit two — the first two win, the third is refused. -/
theorem concurrent_consume_exact_admission_witness :
    0 < 1 ∧ 2 < 3 ∧
    ((consumeRun 2 1 (List.replicate 3 0) none).fst =
        List.replicate 2 true ++ List.replicate (3 - 2) false ∧
      List.count true (consumeRun 2 1 (List.replicate 3 0) none).fst = 2 ∧
      List.count false (consumeRun 2 1 (List.replicate 3 0) none).fst = 3 - 2) :=
  ⟨by decide, by decide, concurrent_consume_exact_admission 2 3 1 0 (by decide) (by decide)⟩

end ClickToCall
